import Mathlib

/-!
Verification development for the `ai_automation` browser-agent repository.

The repository contains two parallel agent stacks:
* stack 1: `application/agent/agent.go` (first variant) + `infrastructure/security/security_layer.go`
  + `infrastructure/ai` (OpenAI client) — entities `Action`, `ActionResult`, `Task`;
* stack 2: `application/agent/agent.go` (second variant) + the `securityLayer` over
  `AgentResponse` + the playwright `browserController` with its tab bookkeeping.

Strings are embedded as lists of characters so that the keyword-containment logic of
`strings.Contains` / `strings.ToLower` can be reasoned about directly.  External
collaborators (browser, AI backend, the operator at the terminal) are oracles supplied
per loop iteration; the control loops themselves are translated step by step from the
source.
-/

namespace AiAutomation

/-- Plain text, as a list of characters (Go strings are byte/rune sequences;
keyword logic in this repository is rune based). -/
abbrev Str := List Char

/-- Convert a Lean string literal to the `Str` embedding. -/
def toStr (s : String) : Str := s.data

/-- Mirrors `strings.ToLower` (per-character lowering; sufficient for the
ASCII/knowable keywords compared in this code base). -/
def toLowerStr (s : Str) : Str := s.map Char.toLower

/-- Mirrors `strings.HasPrefix`: `startsWithStr s p` is true when `p` is a prefix of `s`. -/
def startsWithStr : Str → Str → Bool
  | _, [] => true
  | [], _ :: _ => false
  | c :: cs, p :: ps => c == p && startsWithStr cs ps

/-- Mirrors `strings.Contains(s, sub)`: some suffix of `s` starts with `sub`. -/
def containsStr : Str → Str → Bool
  | [], sub => startsWithStr [] sub
  | c :: cs, sub => startsWithStr (c :: cs) sub || containsStr cs sub

/-- Mirrors `strings.TrimSpace`. -/
def trimStr (s : Str) : Str :=
  ((s.dropWhile Char.isWhitespace).reverse.dropWhile Char.isWhitespace).reverse

/-- Decimal rendering of a natural number, for messages built with `fmt.Sprintf`. -/
def natToStr (n : Nat) : Str := (Nat.repr n).data

/- ===================== domain/entities ===================== -/

/-- Mirrors `entities.ActionType` constants (Go represents them as strings). -/
def actionNavigate : Str := toStr "navigate"

def actionClick : Str := toStr "click"

def actionTypeText : Str := toStr "type"

def actionExtract : Str := toStr "extract"

def actionWait : Str := toStr "wait"

def actionScroll : Str := toStr "scroll"

/-- Mirrors `entities.Action` (stack 1). -/
structure Action where
  type : Str
  selector : Str := []
  text : Str := []
  url : Str := []
  description : Str := []
  requiresApproval : Bool := false
deriving DecidableEq, Repr

/-- Mirrors `entities.PageElement` — superset of the fields of the two variants
(`TagName` in stack 1, `Type` in stack 2). -/
structure PageElement where
  tagName : Str := []
  type : Str := []
  selector : Str := []
  text : Str := []
  isVisible : Bool := false
  isClickable : Bool := false
deriving DecidableEq, Repr

/-- Mirrors `entities.InputInfo` (fields used by the code under verification). -/
structure InputInfo where
  type : Str := []
  name : Str := []
deriving DecidableEq, Repr

/-- Mirrors `entities.FormInfo`. -/
structure FormInfo where
  action : Str := []
  method : Str := []
  inputs : List InputInfo := []
deriving DecidableEq, Repr

/-- Mirrors `entities.LinkInfo`. -/
structure LinkInfo where
  text : Str := []
  url : Str := []
  selector : Str := []
deriving DecidableEq, Repr

/-- Mirrors `entities.PageInfo` — superset of the two variants (stack 2 has no
`links`/`forms`/`buttons`). -/
structure PageInfo where
  url : Str := []
  title : Str := []
  description : Str := []
  elements : List PageElement := []
  textContent : Str := []
  links : List LinkInfo := []
  forms : List FormInfo := []
  buttons : List PageElement := []
deriving DecidableEq, Repr

/-- Mirrors `entities.ActionResult` (stack 1).  `pageInfo` models the Go pointer field
`PageInfo *entities.PageInfo` (nil = `none`). -/
structure ActionResult where
  success : Bool := false
  message : Str := []
  data : Str := []
  error : Str := []
  pageInfo : Option PageInfo := none
deriving DecidableEq, Repr

/-- Mirrors `entities.TaskStatus`. -/
inductive TaskStatus where
  | pending
  | inProgress
  | completed
  | failed
  | waiting
deriving DecidableEq, Repr

/- ===================== infrastructure/security/security_layer.go (stack 1) ===================== -/

/-- Destructive-action keyword vocabulary of `SecurityLayer.IsDestructiveAction`. -/
def destructiveKeywords : List Str :=
  [toStr "delete", toStr "remove", toStr "удалить", toStr "удаление",
   toStr "cancel", toStr "отменить", toStr "отмена",
   toStr "clear", toStr "очистить",
   toStr "reset", toStr "сброс"]

/-- Mirrors `SecurityLayer.IsDestructiveAction`: a click whose selector or description
contains a destructive keyword. -/
def isDestructiveAction (a : Action) : Bool :=
  if a.type == actionClick then
    destructiveKeywords.any fun keyword =>
      containsStr (toLowerStr a.selector) keyword || containsStr (toLowerStr a.description) keyword
  else
    false

/-- Mirrors `SecurityLayer.GetActionRiskLevel`. -/
def getActionRiskLevel (a : Action) : Str :=
  if isDestructiveAction a then toStr "high"
  else if a.type == actionNavigate then toStr "low"
  else if a.type == actionTypeText then toStr "medium"
  else if a.type == actionClick then toStr "medium"
  else toStr "low"

/-- Payment-page keyword vocabulary of `SecurityLayer.isPaymentAction`. -/
def paymentKeywords : List Str :=
  [toStr "payment", toStr "pay", toStr "checkout", toStr "оплата", toStr "платеж",
   toStr "order", toStr "заказ", toStr "purchase", toStr "покупка"]

/-- Confirmation keyword vocabulary of `SecurityLayer.isPaymentAction`. -/
def confirmKeywords : List Str :=
  [toStr "submit", toStr "confirm", toStr "pay", toStr "оплатить", toStr "подтвердить",
   toStr "order", toStr "заказать", toStr "buy", toStr "купить"]

/-- Mirrors `SecurityLayer.isPaymentAction`: on a payment-looking URL, a click on a
confirm/submit-looking target.  (The Go loop over the payment keywords returns as
soon as both a URL keyword and a confirm keyword are found; the inner body does not
depend on which URL keyword fired, so the conjunction below is the same function.) -/
def isPaymentAction (a : Action) (p : Option PageInfo) : Bool :=
  match p with
  | none => false
  | some page =>
    (paymentKeywords.any fun keyword => containsStr (toLowerStr page.url) keyword) &&
    (a.type == actionClick &&
      confirmKeywords.any fun keyword =>
        containsStr (toLowerStr a.selector) keyword || containsStr (toLowerStr a.description) keyword)

/-- Deletion keyword vocabulary of `SecurityLayer.isDeletionAction`. -/
def deletionKeywords : List Str :=
  [toStr "delete", toStr "удалить", toStr "remove", toStr "удаление",
   toStr "trash", toStr "корзина", toStr "clear", toStr "очистить"]

/-- Mirrors `SecurityLayer.isDeletionAction`. -/
def isDeletionAction (a : Action) : Bool :=
  if a.type == actionClick then
    deletionKeywords.any fun keyword =>
      containsStr (toLowerStr a.selector) keyword || containsStr (toLowerStr a.description) keyword
  else
    false

/-- Submit keyword vocabulary of `SecurityLayer.isCriticalFormSubmission`. -/
def submitKeywords : List Str :=
  [toStr "submit", toStr "send", toStr "отправить", toStr "подтвердить"]

/-- Mirrors `SecurityLayer.isCriticalFormSubmission`: a click on a submit/send-looking
target while the page reports at least one form. -/
def isCriticalFormSubmission (a : Action) (p : Option PageInfo) : Bool :=
  match p with
  | none => false
  | some page =>
    a.type == actionClick &&
    (submitKeywords.any fun keyword =>
      (containsStr (toLowerStr a.selector) keyword || containsStr (toLowerStr a.description) keyword) &&
      decide (0 < page.forms.length))

/-- Mirrors `SecurityLayer.RequiresApproval`. -/
def requiresApproval (a : Action) (p : Option PageInfo) : Bool :=
  isDestructiveAction a || isPaymentAction a p || isDeletionAction a || isCriticalFormSubmission a p

/- ===================== stack-2 entities and security layer ===================== -/

/-- The dynamically-typed `Parameters map[string]interface{}` of stack 2, restricted
to the keys and value shapes the code actually reads.  An absent key and a key of the
wrong dynamic type both fail the Go type assertion, so both are `none` here
(`index` accepts `int` or `float64` in Go; its extracted integer is modelled). -/
structure Params where
  url : Option Str := none
  selector : Option Str := none
  text : Option Str := none
  index : Option Int := none
  action : Option Str := none
deriving DecidableEq, Repr

/-- Mirrors `entities.AgentResponse` (stack 2). -/
structure AgentResponse where
  action : Str := []
  reasoning : Str := []
  parameters : Params := {}
  needsInput : Bool := false
  userMessage : Str := []
  isComplete : Bool := false
deriving DecidableEq, Repr

/-- Destructive vocabulary of the stack-2 `securityLayer.IsDestructiveAction`
(kept with the duplicates of the source list). -/
def destructiveActions2 : List Str :=
  [toStr "delete", toStr "удалить", toStr "удаление",
   toStr "pay", toStr "оплатить", toStr "оплата", toStr "payment",
   toStr "submit", toStr "отправить", toStr "подтвердить",
   toStr "confirm", toStr "подтверждение",
   toStr "purchase", toStr "купить", toStr "покупка",
   toStr "send", toStr "отправить",
   toStr "remove", toStr "удалить",
   toStr "cancel", toStr "отменить"]

/-- Stack-2 `securityLayer.IsDestructiveAction`: keyword scan over the action name,
the reasoning, and the optional nested `parameters["action"]` string. -/
def isDestructiveAction2 (r : AgentResponse) : Bool :=
  (destructiveActions2.any fun d =>
    containsStr (toLowerStr r.action) d || containsStr (toLowerStr r.reasoning) d) ||
  (match r.parameters.action with
   | some pa => destructiveActions2.any fun d => containsStr (toLowerStr pa) d
   | none => false)

/-- Stack-2 `securityLayer.ShouldAskForConfirmation`. -/
def shouldAskForConfirmation (r : AgentResponse) : Bool :=
  isDestructiveAction2 r

/- ===================== infrastructure/ai (OpenAI client) ===================== -/

/-- A tool offered to the decision backend; `name` mirrors `tool.Function.Name`,
the only field the suppression logic reads. -/
structure Tool where
  name : Str
deriving DecidableEq, Repr

/-- Mirrors `OpenAIClient.buildTools`: the full action vocabulary, in source order. -/
def buildTools : List Tool :=
  [⟨toStr "navigate"⟩, ⟨toStr "click"⟩, ⟨toStr "type_text"⟩,
   ⟨toStr "scroll"⟩, ⟨toStr "extract"⟩, ⟨toStr "wait"⟩]

/-- Mirrors `DecideNextAction` lines 50-56: an `extract` among the last 3 history entries
(the Go loop walks indices `len-1` down to `max(0, len-3)`, i.e. the last three). -/
def hasRecentExtract (history : List Action) : Bool :=
  (history.drop (history.length - 3)).any fun a => a.type == actionExtract

/-- Mirrors `DecideNextAction` lines 59-68: number of `scroll` entries among the last 5. -/
def recentScrollCount (history : List Action) : Nat :=
  ((history.drop (history.length - 5)).filter fun a => a.type == actionScroll).length

/-- Mirrors `DecideNextAction` lines 70-90: the tool vocabulary after suppression —
`extract` removed after a recent extract, `scroll` removed after 3+ recent scrolls. -/
def decideTools (history : List Action) : List Tool :=
  let tools := buildTools
  let tools := if hasRecentExtract history then
      tools.filter fun t => !(t.name == toStr "extract")
    else tools
  if 3 ≤ recentScrollCount history then
    tools.filter fun t => !(t.name == toStr "scroll")
  else tools

/-- The arguments object of a decision-backend tool call, restricted to the keys the
parser reads plus the scroll parameters the tool schema advertises. -/
structure ToolCallArgs where
  url : Option Str := none
  selector : Option Str := none
  text : Option Str := none
  description : Option Str := none
  direction : Option Str := none
  amount : Option Int := none
deriving DecidableEq, Repr

/-- Mirrors `OpenAIClient.parseActionResponse`, tool-call branch: builds an `Action` from a
tool name and arguments.  Absent arguments leave the Go zero value (empty string).
The `scroll` case sets only the type — direction and amount are never read. -/
def parseToolCall (name : Str) (args : ToolCallArgs) : Except Str Action :=
  let withDescription : Action → Action := fun a => { a with description := args.description.getD [] }
  if name == toStr "navigate" then
    .ok (withDescription { type := actionNavigate, url := args.url.getD [] })
  else if name == toStr "click" then
    .ok (withDescription { type := actionClick, selector := args.selector.getD [] })
  else if name == toStr "type_text" then
    .ok (withDescription { type := actionTypeText, selector := args.selector.getD [], text := args.text.getD [] })
  else if name == toStr "scroll" then
    .ok (withDescription { type := actionScroll })
  else if name == toStr "extract" then
    .ok (withDescription { type := actionExtract })
  else if name == toStr "wait" then
    .ok (withDescription { type := actionWait })
  else
    .error (toStr "unknown action type: " ++ name)

/- ===================== Agent.executeAction (stack 1) ===================== -/

/-- A call issued to the browser controller by `Agent.executeAction`. -/
inductive BrowserCall where
  | navigate (url : Str)
  | click (selector : Str)
  | typeText (selector text : Str)
  | scroll (direction : Str) (amount : Int)
  | extractPage
  | wait (condition : Str) (timeout : Int)
  | refreshPage
deriving DecidableEq, Repr

/-- Browser behaviour presented to one `Agent.executeAction` invocation: the outcome
of the primary call, of an in-switch `ExtractPageInfo` (extract case), and of the
post-action `ExtractPageInfo` refresh. -/
structure ExecEnv where
  navigate : Str → Except Str Unit
  click : Str → Except Str Unit
  typeText : Str → Str → Except Str Unit
  scroll : Str → Int → Except Str Unit
  extract : Except Str PageInfo
  wait : Str → Int → Except Str Unit
  refresh : Except Str PageInfo

/-- The `switch action.Type` body of `Agent.executeAction`, before the final
snapshot refresh.  Every early `return result` of the source is a `success := false`
result here, and every fall-through path a `success := true` one. -/
def executeActionSwitch (env : ExecEnv) (a : Action) : ActionResult × List BrowserCall :=
  if a.type == actionNavigate then
    if a.url == [] then ({ error := toStr "URL is required for navigate action" }, [])
    else match env.navigate a.url with
      | .error e => ({ error := e }, [.navigate a.url])
      | .ok _ =>
        ({ success := true, message := toStr "Успешно перешел на страницу: " ++ a.url }, [.navigate a.url])
  else if a.type == actionClick then
    if a.selector == [] then ({ error := toStr "Selector is required for click action" }, [])
    else match env.click a.selector with
      | .error e =>
        ({ error := e, message := toStr "Failed to click on " ++ a.selector }, [.click a.selector])
      | .ok _ =>
        ({ success := true, message := toStr "Успешно кликнул на элемент: " ++ a.selector }, [.click a.selector])
  else if a.type == actionTypeText then
    if a.selector == [] then ({ error := toStr "Selector is required for type action" }, [])
    else if a.text == [] then ({ error := toStr "Text is required for type action" }, [])
    else match env.typeText a.selector a.text with
      | .error e =>
        ({ error := e, message := toStr "Failed to type text into " ++ a.selector }, [.typeText a.selector a.text])
      | .ok _ =>
        ({ success := true, message := toStr "Успешно ввел текст в поле: " ++ a.selector }, [.typeText a.selector a.text])
  else if a.type == actionScroll then
    -- direction := "down"; amount := 500 — hard-coded in the source
    match env.scroll (toStr "down") 500 with
    | .error e => ({ error := e }, [.scroll (toStr "down") 500])
    | .ok _ =>
      ({ success := true, message := toStr "Успешно прокрутил страницу" }, [.scroll (toStr "down") 500])
  else if a.type == actionExtract then
    match env.extract with
    | .error e => ({ error := e }, [.extractPage])
    | .ok p =>
      ({ success := true, message := toStr "Успешно извлек информацию со страницы",
         pageInfo := some p }, [.extractPage])
  else if a.type == actionWait then
    -- timeout := 3 — hard-coded in the source
    match env.wait [] 3 with
    | .error e => ({ error := e }, [.wait [] 3])
    | .ok _ =>
      ({ success := true, message := toStr "Ожидание 3 секунд завершено" }, [.wait [] 3])
  else
    ({ error := toStr "Unknown action type: " ++ a.type }, [])

/-- Mirrors `Agent.executeAction`: the switch plus the trailing page-info refresh.  The
refresh runs exactly on the fall-through (success) paths; on a refresh error the
result keeps whatever `pageInfo` it already had (nil for all but extract). -/
def executeAction (env : ExecEnv) (a : Action) : ActionResult × List BrowserCall :=
  let rc := executeActionSwitch env a
  if rc.1.success then
    match env.refresh with
    | .ok p => ({ rc.1 with pageInfo := some p }, rc.2 ++ [.refreshPage])
    | .error _ => (rc.1, rc.2 ++ [.refreshPage])
  else rc

/- ===================== Agent.ExecuteTask (stack 1) ===================== -/

/-- The completion test of `ExecuteTask` lines 79-83: type `complete`, or a
bilingual completion phrase in the description. -/
def isCompleteAction (a : Action) : Bool :=
  a.type == toStr "complete" ||
  containsStr (toLowerStr a.description) (toStr "задача выполнена") ||
  containsStr (toLowerStr a.description) (toStr "task complete")

/-- The affirmative operator responses of `ExecuteTask` line 97. -/
def affirmativeResponses : List Str :=
  [toStr "продолжить", toStr "подтвердить", toStr "да", toStr "yes", toStr "y"]

/-- Whether a (trimmed, lowered) operator response approves the pending action. -/
def isAffirmative (s : Str) : Bool := affirmativeResponses.contains s

/-- Environment of one stack-1 `ExecuteTask` run: browser, decision backend and
operator, indexed by iteration number. -/
structure LoopEnv1 where
  pageInfo : Nat → Except Str PageInfo
  decide : Nat → Except Str (Option Action)
  response : Nat → Str
  exec : Nat → ExecEnv

/-- How a stack-1 run ends (the loop returns an error except on completion). -/
inductive Exit1 where
  | pageInfoError (e : Str)
  | deciderError (e : Str)
  | completed
  | cancelledByUser
  | maxIterations
deriving DecidableEq, Repr

/-- Per-iteration record of a stack-1 run (instrumentation of the loop body). -/
structure IterLog where
  pageInfo : PageInfo
  action : Action
  approvalRequired : Bool
  response : Str
  executed : Bool
  result : Option (ActionResult × List BrowserCall)
deriving DecidableEq, Repr

/-- Result of a stack-1 run: iteration records, number of calls made to the
decision backend, the exit condition and the final `task.Status`. -/
structure RunResult1 where
  trace : List IterLog
  decideCalls : Nat
  exit : Exit1
  status : TaskStatus
deriving DecidableEq, Repr

/-- Stack-1 `Agent.ExecuteTask` loop (lines 51-141), one fuel unit per iteration
of `for iteration := 0; iteration < a.maxIterations; iteration++`.  On a gate hit
the action is stored with `RequiresApproval = true` exactly as the source mutates
it; denial sets `TaskStatusWaiting` and returns the cancellation error. -/
def runLoop1 (env : LoopEnv1) : Nat → Nat → RunResult1
  | _, 0 => ⟨[], 0, .maxIterations, .failed⟩
  | i, fuel + 1 =>
    match env.pageInfo i with
    | .error e => ⟨[], 0, .pageInfoError e, .inProgress⟩
    | .ok p =>
      match env.decide i with
      | .error e => ⟨[], 1, .deciderError e, .inProgress⟩
      | .ok none => ⟨[], 1, .completed, .completed⟩
      | .ok (some a0) =>
        if isCompleteAction a0 then ⟨[], 1, .completed, .completed⟩
        else if requiresApproval a0 (some p) then
          let a := { a0 with requiresApproval := true }
          let resp := toLowerStr (trimStr (env.response i))
          if isAffirmative resp then
            let r := executeAction (env.exec i) a
            let rest := runLoop1 env (i + 1) fuel
            ⟨⟨p, a, true, resp, true, some r⟩ :: rest.trace, rest.decideCalls + 1, rest.exit, rest.status⟩
          else
            ⟨[⟨p, a, true, resp, false, none⟩], 1, .cancelledByUser, .waiting⟩
        else
          let r := executeAction (env.exec i) a0
          let rest := runLoop1 env (i + 1) fuel
          ⟨⟨p, a0, false, [], true, some r⟩ :: rest.trace, rest.decideCalls + 1, rest.exit, rest.status⟩

/-- Mirrors `maxIterations` of stack 1 (`NewAgent` sets 100). -/
def maxIterationsV1 : Nat := 100

/-- Stack-1 `Agent.ExecuteTask`. -/
def executeTask1 (env : LoopEnv1) : RunResult1 := runLoop1 env 0 maxIterationsV1

/- ===================== stack-2 agent: executeAction and ExecuteTask ===================== -/

/-- Browser behaviour presented to one stack-2 `executeAction` invocation. -/
structure ExecEnv2 where
  navigate : Str → Except Str Unit
  openNewTab : Str → Except Str Unit
  switchToTab : Int → Except Str Unit
  click : Str → Except Str Unit
  typeText : Str → Str → Except Str Unit
  waitForElement : Str → Except Str Unit

/-- Stack-2 `Agent.executeAction`: dispatch on the action string with parameter
validation; missing (or wrongly-typed) parameters are validation errors. -/
def executeAction2 (env : ExecEnv2) (r : AgentResponse) : Except Str Unit :=
  if r.action == toStr "navigate" then
    match r.parameters.url with
    | none => .error (toStr "url parameter is required for navigate action")
    | some u => env.navigate u
  else if r.action == toStr "open_new_tab" then
    env.openNewTab (r.parameters.url.getD [])
  else if r.action == toStr "switch_to_tab" then
    match r.parameters.index with
    | none => .error (toStr "index parameter is required for switch_to_tab action")
    | some idx => env.switchToTab idx
  else if r.action == toStr "click" then
    match r.parameters.selector with
    | none => .error (toStr "selector parameter is required for click action")
    | some sel => env.click sel
  else if r.action == toStr "type" then
    match r.parameters.selector with
    | none => .error (toStr "selector parameter is required for type action")
    | some sel =>
      match r.parameters.text with
      | none => .error (toStr "text parameter is required for type action")
      | some t => env.typeText sel t
  else if r.action == toStr "wait_for_element" then
    match r.parameters.selector with
    | none => .error (toStr "selector parameter is required for wait_for_element action")
    | some sel => env.waitForElement sel
  else if r.action == toStr "complete" then
    .ok ()
  else
    .error (toStr "unknown action: " ++ r.action)

/-- The candidate-selector collection of the stack-2 recovery branch: selectors of
visible, clickable elements, at most 10 (the source appends and breaks at 10). -/
def availableSelectors (els : List PageElement) : List Str :=
  ((els.filter fun el => el.isVisible && el.isClickable).take 10).map fun el => el.selector

/-- The plain failure history entry of the stack-2 loop
(`Ошибка: %v. Попробую другой подход.`). -/
def errorEntryPlain (e : Str) : AgentResponse :=
  { action := toStr "error",
    reasoning := toStr "Ошибка: " ++ e ++ toStr ". Попробую другой подход." }

/-- The selector-enriched failure history entry of the stack-2 loop, emitted only
for a failed `wait_for_element` when the fresh snapshot is available. -/
def errorEntryWithSelectors (e : Str) (p : PageInfo) : AgentResponse :=
  { action := toStr "error",
    reasoning := toStr "Элемент не найден: " ++ e ++
      toStr ". Доступные элементы на странице: " ++
      List.intercalate (toStr ", ") (availableSelectors p.elements) ++
      toStr ". Попробую использовать другой селектор или подход." }

/-- Environment of one stack-2 `ExecuteTask` run, indexed by iteration number.
The three cancellation flags model the context checks at the top of the loop,
in the post-failure select and in the post-success select; `ctxErrAtPageInfo`
models the `ctx.Err() != nil` test inside the `GetPageInfo` error branch. -/
structure LoopEnv2 where
  cancelled : Nat → Bool
  pageInfo : Nat → Except Str PageInfo
  ctxErrAtPageInfo : Nat → Bool
  decide : Nat → Except Str AgentResponse
  exec : Nat → ExecEnv2
  pageInfoRetry : Nat → Except Str PageInfo
  cancelledAfterError : Nat → Bool
  cancelledAfterExec : Nat → Bool

/-- How a stack-2 run ends. -/
inductive Exit2 where
  | cancelled
  | pageInfoError (e : Str)
  | deciderError (e : Str)
  | needsInput
  | completed
  | requiresConfirmation
  | maxIterations
deriving DecidableEq, Repr

/-- Result of a stack-2 run: the accumulated `a.history`, the responses actually
handed to `executeAction`, the number of decision calls, and the exit condition. -/
structure RunResult2 where
  hist : List AgentResponse
  execs : List AgentResponse
  decideCalls : Nat
  exit : Exit2
deriving DecidableEq, Repr

/-- Stack-2 `Agent.ExecuteTask` loop (the 50-iteration variant).  The decision is
appended to history before any flag checks, exactly as in the source; an execution
failure appends an error entry (selector-enriched only for `wait_for_element`)
and the loop continues. -/
def runLoop2 (env : LoopEnv2) : Nat → Nat → RunResult2
  | _, 0 => ⟨[], [], 0, .maxIterations⟩
  | i, fuel + 1 =>
    if env.cancelled i then ⟨[], [], 0, .cancelled⟩
    else match env.pageInfo i with
    | .error e => ⟨[], [], 0, if env.ctxErrAtPageInfo i then .cancelled else .pageInfoError e⟩
    | .ok _ =>
      match env.decide i with
      | .error e => ⟨[], [], 1, .deciderError e⟩
      | .ok r =>
        if r.needsInput then ⟨[r], [], 1, .needsInput⟩
        else if r.isComplete then ⟨[r], [], 1, .completed⟩
        else if shouldAskForConfirmation r then ⟨[r], [], 1, .requiresConfirmation⟩
        else
          match executeAction2 (env.exec i) r with
          | .error e =>
            let entry :=
              if r.action == toStr "wait_for_element" then
                match env.pageInfoRetry i with
                | .ok p2 => errorEntryWithSelectors e p2
                | .error _ => errorEntryPlain e
              else errorEntryPlain e
            if env.cancelledAfterError i then ⟨[r, entry], [r], 1, .cancelled⟩
            else
              let rest := runLoop2 env (i + 1) fuel
              ⟨r :: entry :: rest.hist, r :: rest.execs, rest.decideCalls + 1, rest.exit⟩
          | .ok _ =>
            if env.cancelledAfterExec i then ⟨[r], [r], 1, .cancelled⟩
            else
              let rest := runLoop2 env (i + 1) fuel
              ⟨r :: rest.hist, r :: rest.execs, rest.decideCalls + 1, rest.exit⟩

/-- Mirrors `maxIterations` of stack 2 (`ExecuteTask` sets 50). -/
def maxIterationsV2 : Nat := 50

/-- Stack-2 `Agent.ExecuteTask`. -/
def executeTask2 (env : LoopEnv2) : RunResult2 := runLoop2 env 0 maxIterationsV2

/- ===================== browserController tab bookkeeping ===================== -/

/-- The tab-session state of `browserController`: the ordered page list and the
active page, pages identified by handles. -/
structure TabState where
  pages : List Nat
  page : Nat
deriving DecidableEq, Repr

/-- The state after `NewBrowserController`: one page, active. -/
def initTabState (p0 : Nat) : TabState := ⟨[p0], p0⟩

/-- Mirrors `browserController.SwitchToTab`: an out-of-range index is rejected with an
error carrying the index and the tab count, leaving the state untouched. -/
def switchToTab (s : TabState) (index : Int) : Except (Int × Nat) Unit × TabState :=
  if index < 0 ∨ (s.pages.length : Int) ≤ index then
    (.error (index, s.pages.length), s)
  else
    (.ok (), { s with page := s.pages.getD index.toNat 0 })

/-- An atomic mutation of the tab session.  `openNewTab` is the synchronous
`OpenNewTab` call, `onPageOpened` the asynchronous `context.OnPage` handler (both
append the page and make it active), `onPageClosed` the asynchronous `OnClose`
handler; all run under `pagesMutex`, so a run is a sequence of these events. -/
inductive TabEvent where
  | openNewTab (id : Nat)
  | onPageOpened (id : Nat)
  | switchTab (index : Int)
  | onPageClosed (id : Nat)
deriving DecidableEq, Repr

/-- One mutex-protected transition of the tab session. -/
def applyTabEvent (s : TabState) (e : TabEvent) : TabState :=
  match e with
  | .openNewTab id => { pages := s.pages ++ [id], page := id }
  | .onPageOpened id => { pages := s.pages ++ [id], page := id }
  | .switchTab index => (switchToTab s index).2
  | .onPageClosed id =>
    let pages := s.pages.erase id
    if s.page = id ∧ pages ≠ [] then { pages := pages, page := pages.getD 0 0 }
    else { pages := pages, page := s.page }

/-- A whole interleaving of loop calls and asynchronous tab events. -/
def applyTabEvents (s : TabState) (es : List TabEvent) : TabState :=
  es.foldl applyTabEvent s

/-- Mirrors `browserController.GetCurrentTabIndex`: index of the first page equal to the
active one, `0` when the active page is not in the list. -/
def findTabIndex : List Nat → Nat → Option Nat
  | [], _ => none
  | p :: rest, page => if p == page then some 0 else (findTabIndex rest page).map (· + 1)

/-- Mirrors `browserController.GetCurrentTabIndex`. -/
def getCurrentTabIndex (s : TabState) : Nat := (findTabIndex s.pages s.page).getD 0

/-- Mirrors `browserController.GetTabsCount`. -/
def getTabsCount (s : TabState) : Nat := s.pages.length

/- ===================== ordering of risk levels and auxiliary predicates ===================== -/

/-- Numeric order of the risk-level strings: low < medium < high. -/
def riskOrd (s : Str) : Nat :=
  if s == toStr "high" then 2 else if s == toStr "medium" then 1 else 0

/-- The tab-session invariant: while any tab is open, the active page is one of
the open pages. -/
def tabInv (s : TabState) : Prop := s.pages ≠ [] → s.page ∈ s.pages

/- ===================== concrete inputs used by witnesses and counterexamples ===================== -/

/-- A click on a submit button: approval-gated (critical form submission) but only
medium risk. -/
def c2Action : Action :=
  { type := actionClick, selector := toStr "#submit-button",
    description := toStr "click the submit button" }

/-- A non-payment page carrying one form. -/
def c2Page : PageInfo := { url := toStr "https://example.com/profile", forms := [{}] }

/-- A destructive click (high risk). -/
def c2HighAction : Action :=
  { type := actionClick, selector := toStr "#delete-account",
    description := toStr "delete the user account" }

/-- A harmless click, base point for the monotonicity witness. -/
def c8Base : Action :=
  { type := actionClick, selector := toStr "#ok", description := toStr "press ok" }

/-- A bare scroll action (the parser carries no direction or amount). -/
def scrollAction : Action := { type := actionScroll }

/-- A bare extract action. -/
def extractAction : Action := { type := actionExtract }

/-- History triggering both suppressions: an extract in the last 3 entries and four
scrolls in the last 5. -/
def c5Hist : List Action :=
  [scrollAction, scrollAction, scrollAction, extractAction, scrollAction]

/-- A browser where every call succeeds and the refresh yields an empty snapshot. -/
def benignExec : ExecEnv :=
  { navigate := fun _ => .ok (), click := fun _ => .ok (),
    typeText := fun _ _ => .ok (), scroll := fun _ _ => .ok (),
    extract := .ok {}, wait := fun _ _ => .ok (), refresh := .ok {} }

/-- A browser whose action calls succeed but whose post-action snapshot refresh
fails. -/
def c9Env : ExecEnv :=
  { benignExec with
    refresh := .error (toStr "snapshot timeout"),
    extract := .error (toStr "snapshot timeout") }

/-- A navigation intent for the snapshot-refresh counterexample. -/
def c9Action : Action := { type := actionNavigate, url := toStr "https://example.com" }

/-- The snapshot returned by a succeeding refresh. -/
def c9Page : PageInfo := { url := toStr "https://example.com", title := toStr "Example" }

/-- A browser whose refresh returns `c9Page`. -/
def c9OkEnv : ExecEnv := { benignExec with refresh := .ok c9Page }

/-- Decision-backend arguments carrying scroll parameters that the parser must
ignore. -/
def c10Args : ToolCallArgs :=
  { direction := some (toStr "up"), amount := some 9999,
    description := some (toStr "scroll a lot upward") }

/-- An event interleaving: two openings (one synchronous, one asynchronous), a
switch, and an asynchronous close of the active tab. -/
def c7Events : List TabEvent :=
  [.openNewTab 1, .onPageOpened 2, .switchTab 1, .onPageClosed 2]

/-- Page snapshot for the approval-denial run. -/
def c1Page : PageInfo := { url := toStr "https://shop.example.com" }

/-- A destructive click decided by the backend. -/
def c1Action : Action :=
  { type := actionClick, selector := toStr "#delete-account",
    description := toStr "нажать кнопку удалить аккаунт" }

/-- Stack-1 run in which the decided action is approval-gated and the operator
answers `нет` (a denial). -/
def c1Env : LoopEnv1 :=
  { pageInfo := fun _ => .ok c1Page,
    decide := fun _ => .ok (some c1Action),
    response := fun _ => toStr "нет",
    exec := fun _ => benignExec }

/-- The single iteration record produced by `c1Env`. -/
def c1Log : IterLog :=
  ⟨c1Page, { c1Action with requiresApproval := true }, true, toStr "нет", false, none⟩

/-- A stack-2 browser where every call succeeds. -/
def benignExec2 : ExecEnv2 :=
  { navigate := fun _ => .ok (), openNewTab := fun _ => .ok (),
    switchToTab := fun _ => .ok (), click := fun _ => .ok (),
    typeText := fun _ _ => .ok (), waitForElement := fun _ => .ok () }

/-- A harmless stack-2 click decision. -/
def c1Resp : AgentResponse :=
  { action := toStr "click", reasoning := toStr "нажимаю на ссылку",
    parameters := { selector := some (toStr "#a") } }

/-- A completion decision. -/
def respDone : AgentResponse :=
  { action := toStr "complete", reasoning := toStr "готово", isComplete := true }

/-- Stack-2 environment with no cancellation, benign snapshots and browser. -/
def quietEnv2 (decide : Nat → Except Str AgentResponse) (exec : Nat → ExecEnv2)
    (retry : Nat → Except Str PageInfo) : LoopEnv2 :=
  { cancelled := fun _ => false,
    pageInfo := fun _ => .ok {},
    ctxErrAtPageInfo := fun _ => false,
    decide := decide,
    exec := exec,
    pageInfoRetry := retry,
    cancelledAfterError := fun _ => false,
    cancelledAfterExec := fun _ => false }

/-- Stack-2 run executing one harmless click, then completing. -/
def c1Env2 : LoopEnv2 :=
  quietEnv2 (fun i => .ok (if i == 0 then c1Resp else respDone))
    (fun _ => benignExec2) (fun _ => .error [])

/-- Stack-1 run whose decider always asks for a harmless wait: the ceiling is hit. -/
def c4Env1 : LoopEnv1 :=
  { pageInfo := fun _ => .ok {},
    decide := fun _ => .ok (some { type := actionWait }),
    response := fun _ => [],
    exec := fun _ => benignExec }

/-- Stack-2 run whose decider always returns a no-op `complete` action without the
completion flag: the ceiling is hit. -/
def c4Env2 : LoopEnv2 :=
  quietEnv2 (fun _ => .ok { action := toStr "complete", reasoning := toStr "жду" })
    (fun _ => benignExec2) (fun _ => .error [])

/-- Stack-2 run whose first snapshot acquisition fails. -/
def c3Env : LoopEnv2 :=
  quietEnv2 (fun _ => .error []) (fun _ => benignExec2) (fun _ => .error [])

/-- The failing snapshot environment: `GetPageInfo` errors at iteration 0. -/
def c3FailEnv : LoopEnv2 :=
  { c3Env with pageInfo := fun _ => .error (toStr "browser crashed") }

/-- A failing navigation decision for the absorption witness. -/
def c3Resp : AgentResponse :=
  { action := toStr "navigate", reasoning := toStr "иду на сайт",
    parameters := { url := some (toStr "https://example.com") } }

/-- Stack-2 run in which navigation fails at iteration 0 and the task later
completes. -/
def c3wEnv : LoopEnv2 :=
  quietEnv2 (fun i => .ok (if i == 0 then c3Resp else respDone))
    (fun _ => { benignExec2 with navigate := fun _ => .error (toStr "dns failure") })
    (fun _ => .error [])

/-- The error text of the failed click in the selector counterexample. -/
def c6Err : Str := toStr "element not found or not visible: timeout"

/-- The failing click decision. -/
def c6Click : AgentResponse :=
  { action := toStr "click", reasoning := toStr "кликаю по кнопке",
    parameters := { selector := some (toStr "#btn") } }

/-- The refreshed snapshot during recovery: one visible, clickable candidate. -/
def c6Page2 : PageInfo :=
  { elements := [{ selector := toStr "#cand", isVisible := true, isClickable := true }] }

/-- Stack-2 run in which a click fails with element-not-found while a fresh
snapshot (with a visible candidate) is available, then the task completes. -/
def c6Env : LoopEnv2 :=
  quietEnv2 (fun i => .ok (if i == 0 then c6Click else respDone))
    (fun _ => { benignExec2 with click := fun _ => .error c6Err })
    (fun _ => .ok c6Page2)

/-- A failing wait-for-element decision. -/
def c6Wait : AgentResponse :=
  { action := toStr "wait_for_element", reasoning := toStr "жду элемент",
    parameters := { selector := some (toStr "#btn") } }

/-- Stack-2 run in which a `wait_for_element` fails while a fresh snapshot is
available. -/
def c6wEnv : LoopEnv2 :=
  quietEnv2 (fun i => .ok (if i == 0 then c6Wait else respDone))
    (fun _ => { benignExec2 with waitForElement := fun _ => .error c6Err })
    (fun _ => .ok c6Page2)

/- ===================== theorems ===================== -/

theorem startsWithStr_append {s p t : Str} (h : startsWithStr s p = true) :
    startsWithStr (s ++ t) p = true := by
  induction s generalizing p with
  | nil =>
    cases p with
    | nil => cases t with
      | nil => rfl
      | cons c cs => rfl
    | cons q qs => simp [startsWithStr] at h
  | cons c cs ih =>
    cases p with
    | nil => rfl
    | cons q qs =>
      simp only [startsWithStr, Bool.and_eq_true] at h
      simp only [List.cons_append, startsWithStr, Bool.and_eq_true]
      exact ⟨h.1, ih h.2⟩

theorem containsStr_nil_right (s : Str) : containsStr s [] = true := by
  induction s with
  | nil => rfl
  | cons c cs ih => simp [containsStr, startsWithStr]

theorem containsStr_append {s sub t : Str} (h : containsStr s sub = true) :
    containsStr (s ++ t) sub = true := by
  induction s with
  | nil =>
    cases sub with
    | nil => simpa using containsStr_nil_right t
    | cons q qs => simp [containsStr, startsWithStr] at h
  | cons c cs ih =>
    simp only [containsStr, Bool.or_eq_true] at h
    simp only [List.cons_append, containsStr, Bool.or_eq_true]
    cases h with
    | inl h => exact Or.inl (startsWithStr_append h)
    | inr h => exact Or.inr (ih h)

theorem toLowerStr_append (s t : Str) : toLowerStr (s ++ t) = toLowerStr s ++ toLowerStr t :=
  List.map_append _ _ _

theorem isDestructiveAction_append_desc {a : Action} {t : Str}
    (h : isDestructiveAction a = true) :
    isDestructiveAction { a with description := a.description ++ t } = true := by
  simp only [isDestructiveAction] at h ⊢
  split at h
  next hty =>
    simp only [hty, if_true]
    simp only [List.any_eq_true, Bool.or_eq_true] at h ⊢
    obtain ⟨k, hk, hc⟩ := h
    refine ⟨k, hk, ?_⟩
    cases hc with
    | inl hc => exact Or.inl hc
    | inr hc =>
      right
      rw [toLowerStr_append]
      exact containsStr_append hc
  next => exact absurd h (by simp)

theorem isDestructiveAction_append_sel {a : Action} {t : Str}
    (h : isDestructiveAction a = true) :
    isDestructiveAction { a with selector := a.selector ++ t } = true := by
  simp only [isDestructiveAction] at h ⊢
  split at h
  next hty =>
    simp only [hty, if_true]
    simp only [List.any_eq_true, Bool.or_eq_true] at h ⊢
    obtain ⟨k, hk, hc⟩ := h
    refine ⟨k, hk, ?_⟩
    cases hc with
    | inl hc =>
      left
      rw [toLowerStr_append]
      exact containsStr_append hc
    | inr hc => exact Or.inr hc
  next => exact absurd h (by simp)

theorem riskOrd_le_two (s : Str) : riskOrd s ≤ 2 := by
  unfold riskOrd
  split
  · exact le_refl 2
  · split
    · exact Nat.le_of_lt Nat.one_lt_two
    · exact Nat.zero_le 2

theorem risk_mono_desc (a : Action) (t : Str) :
    riskOrd (getActionRiskLevel a) ≤
      riskOrd (getActionRiskLevel { a with description := a.description ++ t }) := by
  by_cases hd : isDestructiveAction a = true
  · have hd2 := isDestructiveAction_append_desc (t := t) hd
    simp [getActionRiskLevel, hd, hd2]
  · by_cases hd2 : isDestructiveAction { a with description := a.description ++ t } = true
    · calc riskOrd (getActionRiskLevel a) ≤ 2 := riskOrd_le_two _
        _ = riskOrd (getActionRiskLevel { a with description := a.description ++ t }) := by
            simp [getActionRiskLevel, hd2, riskOrd]
    · simp only [getActionRiskLevel, hd, hd2, if_false]
      exact le_refl _

theorem risk_mono_sel (a : Action) (t : Str) :
    riskOrd (getActionRiskLevel a) ≤
      riskOrd (getActionRiskLevel { a with selector := a.selector ++ t }) := by
  by_cases hd : isDestructiveAction a = true
  · have hd2 := isDestructiveAction_append_sel (t := t) hd
    simp [getActionRiskLevel, hd, hd2]
  · by_cases hd2 : isDestructiveAction { a with selector := a.selector ++ t } = true
    · calc riskOrd (getActionRiskLevel a) ≤ 2 := riskOrd_le_two _
        _ = riskOrd (getActionRiskLevel { a with selector := a.selector ++ t }) := by
            simp [getActionRiskLevel, hd2, riskOrd]
    · simp only [getActionRiskLevel, hd, hd2, if_false]
      exact le_refl _

/-- C2 (counterexample): the submit-button click `c2Action` on the form-bearing page `c2Page` requires approval although its risk level is only medium, refuting the claimed equivalence of `RequiresApproval` with a high risk level. -/
theorem c2_approval_without_high_risk :
    requiresApproval c2Action (some c2Page) = true ∧
    ¬(getActionRiskLevel c2Action = toStr "high") := by
  constructor
  · decide
  · decide

/-- C2 (amended): a high risk level from `GetActionRiskLevel` always implies `RequiresApproval`; the converse fails, as the counterexample shows. -/
theorem c2_high_risk_implies_approval :
    ∀ (a : Action) (p : Option PageInfo),
      getActionRiskLevel a = toStr "high" → requiresApproval a p = true := by
  intro a p h
  unfold getActionRiskLevel at h
  split_ifs at h with h1
  · simp [requiresApproval, h1]
  all_goals exact absurd h (by decide)

theorem c2_high_risk_implies_approval_witness :
    getActionRiskLevel c2HighAction = toStr "high" ∧
    requiresApproval c2HighAction (some c2Page) = true :=
  ⟨by decide, c2_high_risk_implies_approval c2HighAction (some c2Page) (by decide)⟩

/-- C8: appending a destructive-vocabulary keyword to an action description or selector never lowers the risk level returned by `GetActionRiskLevel`. -/
theorem c8_risk_monotone :
    ∀ (a : Action) (kw : Str), kw ∈ destructiveKeywords →
      riskOrd (getActionRiskLevel a) ≤
        riskOrd (getActionRiskLevel { a with description := a.description ++ kw }) ∧
      riskOrd (getActionRiskLevel a) ≤
        riskOrd (getActionRiskLevel { a with selector := a.selector ++ kw }) :=
  fun a kw _ => ⟨risk_mono_desc a kw, risk_mono_sel a kw⟩

theorem c8_risk_monotone_witness :
    toStr "delete" ∈ destructiveKeywords ∧
    riskOrd (getActionRiskLevel c8Base) ≤
      riskOrd (getActionRiskLevel { c8Base with description := c8Base.description ++ toStr "delete" }) ∧
    riskOrd (getActionRiskLevel c8Base) ≤
      riskOrd (getActionRiskLevel { c8Base with selector := c8Base.selector ++ toStr "delete" }) :=
  ⟨by decide, (c8_risk_monotone c8Base (toStr "delete") (by decide)).1,
    (c8_risk_monotone c8Base (toStr "delete") (by decide)).2⟩

/-- C5: with an extract among the last 3 history entries the tool vocabulary offered to the decision backend excludes extract, and with 3 or more scrolls among the last 5 it excludes scroll. -/
theorem c5_tool_suppression (h : List Action) :
    (hasRecentExtract h = true → toStr "extract" ∉ (decideTools h).map Tool.name) ∧
    (3 ≤ recentScrollCount h → toStr "scroll" ∉ (decideTools h).map Tool.name) := by
  constructor
  · intro hre hmem
    rw [List.mem_map] at hmem
    obtain ⟨t, ht, hname⟩ := hmem
    have ht1 : t ∈ buildTools.filter (fun t => !(t.name == toStr "extract")) := by
      simp only [decideTools, hre, if_true] at ht
      by_cases hsc : 3 ≤ recentScrollCount h
      · rw [if_pos hsc] at ht
        exact List.mem_of_mem_filter ht
      · rwa [if_neg hsc] at ht
    have hprop := (List.mem_filter.mp ht1).2
    simp only [Bool.not_eq_true', beq_eq_false_iff_ne] at hprop
    exact hprop hname
  · intro hsc hmem
    rw [List.mem_map] at hmem
    obtain ⟨t, ht, hname⟩ := hmem
    simp only [decideTools] at ht
    rw [if_pos hsc] at ht
    have hprop := (List.mem_filter.mp ht).2
    simp only [Bool.not_eq_true', beq_eq_false_iff_ne] at hprop
    exact hprop hname

theorem c5_tool_suppression_witness :
    toStr "extract" ∉ (decideTools c5Hist).map Tool.name ∧
    toStr "scroll" ∉ (decideTools c5Hist).map Tool.name :=
  ⟨(c5_tool_suppression c5Hist).1 (by decide), (c5_tool_suppression c5Hist).2 (by decide)⟩

/-- C10: the tool-call parser carries no direction or amount into a scroll `Action`, and `executeAction` always calls the browser scroll with direction down and amount 500. -/
theorem c10_scroll_parameters_ignored :
    (∀ args : ToolCallArgs, parseToolCall (toStr "scroll") args =
      .ok { type := actionScroll, description := args.description.getD [] }) ∧
    (∀ (env : ExecEnv) (a : Action), a.type = actionScroll →
      (executeAction env a).2.head? = some (.scroll (toStr "down") 500)) := by
  constructor
  · intro args
    rfl
  · intro env a ha
    have hnav : (a.type == actionNavigate) = false := by rw [ha]; decide
    have hclick : (a.type == actionClick) = false := by rw [ha]; decide
    have htt : (a.type == actionTypeText) = false := by rw [ha]; decide
    have hscr : (a.type == actionScroll) = true := by rw [ha]; decide
    simp only [executeAction, executeActionSwitch, hnav, hclick, htt, hscr,
      Bool.false_eq_true, if_false, if_true]
    cases hs : env.scroll (toStr "down") 500 with
    | error e => simp
    | ok u =>
      cases hr : env.refresh with
      | error e => simp
      | ok p => simp

theorem c10_scroll_parameters_ignored_witness :
    parseToolCall (toStr "scroll") c10Args =
      .ok { type := actionScroll, description := toStr "scroll a lot upward" } ∧
    (executeAction benignExec scrollAction).2.head? = some (.scroll (toStr "down") 500) :=
  ⟨(c10_scroll_parameters_ignored).1 c10Args,
    (c10_scroll_parameters_ignored).2 benignExec scrollAction rfl⟩

/-- C9 (counterexample): a successful navigation whose post-action snapshot refresh fails yields `success = true` with no refreshed snapshot, refuting the claim that success always carries one. -/
theorem c9_success_without_snapshot :
    (executeAction c9Env c9Action).1.success = true ∧
    (executeAction c9Env c9Action).1.pageInfo = none := by
  constructor
  · decide
  · decide

/-- C9 (amended): whenever the post-action snapshot refresh succeeds, a successful `ActionResult` carries that refreshed snapshot. -/
theorem c9_success_refresh_carries_snapshot :
    ∀ (env : ExecEnv) (a : Action) (p : PageInfo),
      env.refresh = .ok p → (executeAction env a).1.success = true →
      (executeAction env a).1.pageInfo = some p := by
  intro env a p hr hs
  simp only [executeAction, hr] at hs ⊢
  by_cases hsw : (executeActionSwitch env a).1.success = true
  · simp [hsw]
  · simp [hsw] at hs

theorem c9_success_refresh_carries_snapshot_witness :
    (executeAction c9OkEnv c9Action).1.success = true ∧
    (executeAction c9OkEnv c9Action).1.pageInfo = some c9Page :=
  ⟨by decide, c9_success_refresh_carries_snapshot c9OkEnv c9Action c9Page rfl (by decide)⟩

/- tab lemmas -/

theorem getD_mem_of_lt : ∀ (l : List Nat) (n : Nat), n < l.length → l.getD n 0 ∈ l := by
  intro l
  induction l with
  | nil => intro n h; simp at h
  | cons a as ih =>
    intro n h
    cases n with
    | zero => simp [List.getD]
    | succ m =>
      have hm := ih m (by simpa using h)
      simp only [List.getD_cons_succ]
      exact List.mem_cons_of_mem a hm

theorem tabInv_init (p0 : Nat) : tabInv (initTabState p0) := by
  intro _
  simp [initTabState]

theorem tabInv_step (s : TabState) (e : TabEvent) (h : tabInv s) : tabInv (applyTabEvent s e) := by
  cases e with
  | openNewTab id => intro _; simp [applyTabEvent]
  | onPageOpened id => intro _; simp [applyTabEvent]
  | switchTab idx =>
    intro hne
    simp only [applyTabEvent, switchToTab] at hne ⊢
    split_ifs at hne ⊢ with hcond
    · exact h hne
    · push_neg at hcond
      have hlt : idx.toNat < s.pages.length := by omega
      exact getD_mem_of_lt _ _ hlt
  | onPageClosed id =>
    intro hne
    simp only [applyTabEvent] at hne ⊢
    split_ifs at hne ⊢ with hcond
    · have hlen : 0 < (s.pages.erase id).length := List.length_pos.mpr hne
      exact getD_mem_of_lt _ _ hlen
    · have hpn : s.page ≠ id := fun he => hcond ⟨he, hne⟩
      have hsne : s.pages ≠ [] := by
        intro hnil
        apply hne
        simp [hnil]
      exact (List.mem_erase_of_ne hpn).mpr (h hsne)

theorem tabInv_events (es : List TabEvent) (s : TabState) (h : tabInv s) :
    tabInv (applyTabEvents s es) := by
  induction es generalizing s with
  | nil => exact h
  | cons e es ih => exact ih _ (tabInv_step s e h)

theorem findTabIndex_lt {pages : List Nat} {page : Nat} (h : page ∈ pages) :
    ∃ i, findTabIndex pages page = some i ∧ i < pages.length := by
  induction pages with
  | nil => simp at h
  | cons p rest ih =>
    by_cases hp : (p == page) = true
    · exact ⟨0, by simp [findTabIndex, hp], by simp⟩
    · have hmem : page ∈ rest := by
        rcases List.mem_cons.mp h with he | hm
        · exact absurd (beq_iff_eq.mpr he.symm) hp
        · exact hm
      obtain ⟨i, hf, hl⟩ := ih hmem
      refine ⟨i + 1, ?_, by simpa using Nat.succ_lt_succ hl⟩
      simp [findTabIndex, hp, hf]

/-- C7: after any interleaving of synchronous opens, switches and asynchronous open and close events the active tab index is within range whenever tabs remain open, and `SwitchToTab` rejects every out-of-range index with an error, leaving the session unchanged. -/
theorem c7_tab_invariant :
    (∀ (p0 : Nat) (es : List TabEvent),
      (applyTabEvents (initTabState p0) es).pages ≠ [] →
      getCurrentTabIndex (applyTabEvents (initTabState p0) es) <
        getTabsCount (applyTabEvents (initTabState p0) es)) ∧
    (∀ (s : TabState) (index : Int),
      (index < 0 ∨ (s.pages.length : Int) ≤ index) →
      switchToTab s index = (.error (index, s.pages.length), s)) := by
  constructor
  · intro p0 es hne
    have hinv := tabInv_events es (initTabState p0) (tabInv_init p0) hne
    obtain ⟨i, hf, hl⟩ := findTabIndex_lt hinv
    simpa [getCurrentTabIndex, getTabsCount, hf] using hl
  · intro s index hcond
    unfold switchToTab
    rw [if_pos hcond]

theorem c7_tab_invariant_witness :
    (applyTabEvents (initTabState 0) c7Events).pages ≠ [] ∧
    getCurrentTabIndex (applyTabEvents (initTabState 0) c7Events) <
      getTabsCount (applyTabEvents (initTabState 0) c7Events) ∧
    switchToTab (initTabState 0) 5 = (.error (5, 1), initTabState 0) :=
  ⟨by decide, c7_tab_invariant.1 0 c7Events (by decide),
    c7_tab_invariant.2 (initTabState 0) 5 (by decide)⟩

/- loop-1 lemmas -/

theorem requiresApproval_setFlag (a : Action) (p : Option PageInfo) :
    requiresApproval { a with requiresApproval := true } p = requiresApproval a p := rfl

theorem runLoop1_decideCalls_le (env : LoopEnv1) :
    ∀ (fuel i : Nat), (runLoop1 env i fuel).decideCalls ≤ fuel := by
  intro fuel
  induction fuel with
  | zero => intro i; simp [runLoop1]
  | succ n ih =>
    intro i
    simp only [runLoop1]
    cases hpi : env.pageInfo i with
    | error e => simp
    | ok p =>
      cases hd : env.decide i with
      | error e => simp
      | ok oa =>
        cases oa with
        | none => simp
        | some a0 =>
          dsimp only
          by_cases hc : isCompleteAction a0 = true
          · simp [hc]
          · rw [if_neg hc]
            by_cases hra : requiresApproval a0 (some p) = true
            · rw [if_pos hra]
              by_cases haf : isAffirmative (toLowerStr (trimStr (env.response i))) = true
              · rw [if_pos haf]
                have := ih (i + 1)
                simpa using Nat.succ_le_succ this
              · rw [if_neg haf]
                simp
            · rw [if_neg hra]
              have := ih (i + 1)
              simpa using Nat.succ_le_succ this

theorem runLoop1_max_failed (env : LoopEnv1) :
    ∀ (fuel i : Nat), (runLoop1 env i fuel).exit = .maxIterations →
      (runLoop1 env i fuel).status = .failed := by
  intro fuel
  induction fuel with
  | zero => intro i _; rfl
  | succ n ih =>
    intro i
    simp only [runLoop1]
    cases hpi : env.pageInfo i with
    | error e => intro h; simp at h
    | ok p =>
      cases hd : env.decide i with
      | error e => intro h; simp at h
      | ok oa =>
        cases oa with
        | none => intro h; simp at h
        | some a0 =>
          dsimp only
          by_cases hc : isCompleteAction a0 = true
          · simp [hc]
          · rw [if_neg hc]
            by_cases hra : requiresApproval a0 (some p) = true
            · rw [if_pos hra]
              by_cases haf : isAffirmative (toLowerStr (trimStr (env.response i))) = true
              · rw [if_pos haf]
                intro h
                exact ih (i + 1) h
              · rw [if_neg haf]
                intro h
                simp at h
            · rw [if_neg hra]
              intro h
              exact ih (i + 1) h

theorem runLoop2_decideCalls_le (env : LoopEnv2) :
    ∀ (fuel i : Nat), (runLoop2 env i fuel).decideCalls ≤ fuel := by
  intro fuel
  induction fuel with
  | zero => intro i; simp [runLoop2]
  | succ n ih =>
    intro i
    simp only [runLoop2]
    by_cases hcan : env.cancelled i = true
    · simp [hcan]
    · rw [if_neg hcan]
      cases hpi : env.pageInfo i with
      | error e => simp
      | ok p =>
        cases hd : env.decide i with
        | error e => simp
        | ok r =>
          dsimp only
          by_cases hni : r.needsInput = true
          · simp [hni]
          · rw [if_neg hni]
            by_cases hic : r.isComplete = true
            · simp [hic]
            · rw [if_neg hic]
              by_cases hconf : shouldAskForConfirmation r = true
              · simp [hconf]
              · rw [if_neg hconf]
                cases hex : executeAction2 (env.exec i) r with
                | error e =>
                  dsimp only
                  by_cases hce : env.cancelledAfterError i = true
                  · simp [hce]
                  · rw [if_neg hce]
                    have := ih (i + 1)
                    simpa using Nat.succ_le_succ this
                | ok u =>
                  dsimp only
                  by_cases hcx : env.cancelledAfterExec i = true
                  · simp [hcx]
                  · rw [if_neg hcx]
                    have := ih (i + 1)
                    simpa using Nat.succ_le_succ this

/-- C4: each execution loop calls the decision backend at most its configured ceiling of times (100 and 50), and when the stack-1 ceiling is reached the task ends with status Failed and the max-iterations condition reported. -/
theorem c4_iteration_ceiling :
    (∀ env : LoopEnv1, (executeTask1 env).decideCalls ≤ maxIterationsV1) ∧
    (∀ env : LoopEnv1, (executeTask1 env).exit = .maxIterations →
      (executeTask1 env).status = .failed) ∧
    (∀ env : LoopEnv2, (executeTask2 env).decideCalls ≤ maxIterationsV2) :=
  ⟨fun env => runLoop1_decideCalls_le env maxIterationsV1 0,
   fun env => runLoop1_max_failed env maxIterationsV1 0,
   fun env => runLoop2_decideCalls_le env maxIterationsV2 0⟩

theorem c4_iteration_ceiling_witness :
    (executeTask1 c4Env1).decideCalls ≤ maxIterationsV1 ∧
    (executeTask1 c4Env1).status = .failed ∧
    (executeTask2 c4Env2).decideCalls ≤ maxIterationsV2 :=
  ⟨c4_iteration_ceiling.1 c4Env1, c4_iteration_ceiling.2.1 c4Env1 (by decide),
   c4_iteration_ceiling.2.2 c4Env2⟩

/- step-unfolding equations for the stack-1 loop -/

theorem runLoop1_zero (env : LoopEnv1) (i : Nat) :
    runLoop1 env i 0 = ⟨[], 0, .maxIterations, .failed⟩ := rfl

theorem runLoop1_succ_pageInfoError {env : LoopEnv1} {i : Nat} {e : Str} (fuel : Nat)
    (hpi : env.pageInfo i = .error e) :
    runLoop1 env i (fuel + 1) = ⟨[], 0, .pageInfoError e, .inProgress⟩ := by
  simp [runLoop1, hpi]

theorem runLoop1_succ_deciderError {env : LoopEnv1} {i : Nat} {p : PageInfo} {e : Str} (fuel : Nat)
    (hpi : env.pageInfo i = .ok p) (hd : env.decide i = .error e) :
    runLoop1 env i (fuel + 1) = ⟨[], 1, .deciderError e, .inProgress⟩ := by
  simp [runLoop1, hpi, hd]

theorem runLoop1_succ_decideNone {env : LoopEnv1} {i : Nat} {p : PageInfo} (fuel : Nat)
    (hpi : env.pageInfo i = .ok p) (hd : env.decide i = .ok none) :
    runLoop1 env i (fuel + 1) = ⟨[], 1, .completed, .completed⟩ := by
  simp [runLoop1, hpi, hd]

theorem runLoop1_succ_complete {env : LoopEnv1} {i : Nat} {p : PageInfo} {a0 : Action} (fuel : Nat)
    (hpi : env.pageInfo i = .ok p) (hd : env.decide i = .ok (some a0))
    (hc : isCompleteAction a0 = true) :
    runLoop1 env i (fuel + 1) = ⟨[], 1, .completed, .completed⟩ := by
  simp [runLoop1, hpi, hd, hc]

theorem runLoop1_succ_gated_approved {env : LoopEnv1} {i : Nat} {p : PageInfo} {a0 : Action} (fuel : Nat)
    (hpi : env.pageInfo i = .ok p) (hd : env.decide i = .ok (some a0))
    (hc : isCompleteAction a0 = false) (hra : requiresApproval a0 (some p) = true)
    (haf : isAffirmative (toLowerStr (trimStr (env.response i))) = true) :
    runLoop1 env i (fuel + 1) =
      ⟨⟨p, { a0 with requiresApproval := true }, true, toLowerStr (trimStr (env.response i)), true,
          some (executeAction (env.exec i) { a0 with requiresApproval := true })⟩ ::
          (runLoop1 env (i + 1) fuel).trace,
        (runLoop1 env (i + 1) fuel).decideCalls + 1,
        (runLoop1 env (i + 1) fuel).exit, (runLoop1 env (i + 1) fuel).status⟩ := by
  simp [runLoop1, hpi, hd, hc, hra, haf]

theorem runLoop1_succ_gated_denied {env : LoopEnv1} {i : Nat} {p : PageInfo} {a0 : Action} (fuel : Nat)
    (hpi : env.pageInfo i = .ok p) (hd : env.decide i = .ok (some a0))
    (hc : isCompleteAction a0 = false) (hra : requiresApproval a0 (some p) = true)
    (haf : isAffirmative (toLowerStr (trimStr (env.response i))) = false) :
    runLoop1 env i (fuel + 1) =
      ⟨[⟨p, { a0 with requiresApproval := true }, true, toLowerStr (trimStr (env.response i)),
          false, none⟩], 1, .cancelledByUser, .waiting⟩ := by
  simp [runLoop1, hpi, hd, hc, hra, haf]

theorem runLoop1_succ_ungated {env : LoopEnv1} {i : Nat} {p : PageInfo} {a0 : Action} (fuel : Nat)
    (hpi : env.pageInfo i = .ok p) (hd : env.decide i = .ok (some a0))
    (hc : isCompleteAction a0 = false) (hra : requiresApproval a0 (some p) = false) :
    runLoop1 env i (fuel + 1) =
      ⟨⟨p, a0, false, [], true, some (executeAction (env.exec i) a0)⟩ ::
          (runLoop1 env (i + 1) fuel).trace,
        (runLoop1 env (i + 1) fuel).decideCalls + 1,
        (runLoop1 env (i + 1) fuel).exit, (runLoop1 env (i + 1) fuel).status⟩ := by
  simp [runLoop1, hpi, hd, hc, hra]

/- step-unfolding equations for the stack-2 loop -/

theorem runLoop2_zero (env : LoopEnv2) (i : Nat) :
    runLoop2 env i 0 = ⟨[], [], 0, .maxIterations⟩ := rfl

theorem runLoop2_succ_cancelled {env : LoopEnv2} {i : Nat} (fuel : Nat)
    (hcan : env.cancelled i = true) :
    runLoop2 env i (fuel + 1) = ⟨[], [], 0, .cancelled⟩ := by
  simp [runLoop2, hcan]

theorem runLoop2_succ_pageInfoError {env : LoopEnv2} {i : Nat} {e : Str} (fuel : Nat)
    (hcan : env.cancelled i = false) (hpi : env.pageInfo i = .error e) :
    runLoop2 env i (fuel + 1) =
      ⟨[], [], 0, if env.ctxErrAtPageInfo i then .cancelled else .pageInfoError e⟩ := by
  simp [runLoop2, hcan, hpi]

theorem runLoop2_succ_deciderError {env : LoopEnv2} {i : Nat} {p : PageInfo} {e : Str} (fuel : Nat)
    (hcan : env.cancelled i = false) (hpi : env.pageInfo i = .ok p)
    (hd : env.decide i = .error e) :
    runLoop2 env i (fuel + 1) = ⟨[], [], 1, .deciderError e⟩ := by
  simp [runLoop2, hcan, hpi, hd]

theorem runLoop2_succ_needsInput {env : LoopEnv2} {i : Nat} {p : PageInfo} {r : AgentResponse} (fuel : Nat)
    (hcan : env.cancelled i = false) (hpi : env.pageInfo i = .ok p)
    (hd : env.decide i = .ok r) (hni : r.needsInput = true) :
    runLoop2 env i (fuel + 1) = ⟨[r], [], 1, .needsInput⟩ := by
  simp [runLoop2, hcan, hpi, hd, hni]

theorem runLoop2_succ_complete {env : LoopEnv2} {i : Nat} {p : PageInfo} {r : AgentResponse} (fuel : Nat)
    (hcan : env.cancelled i = false) (hpi : env.pageInfo i = .ok p)
    (hd : env.decide i = .ok r) (hni : r.needsInput = false) (hic : r.isComplete = true) :
    runLoop2 env i (fuel + 1) = ⟨[r], [], 1, .completed⟩ := by
  simp [runLoop2, hcan, hpi, hd, hni, hic]

theorem runLoop2_succ_confirmation {env : LoopEnv2} {i : Nat} {p : PageInfo} {r : AgentResponse} (fuel : Nat)
    (hcan : env.cancelled i = false) (hpi : env.pageInfo i = .ok p)
    (hd : env.decide i = .ok r) (hni : r.needsInput = false) (hic : r.isComplete = false)
    (hconf : shouldAskForConfirmation r = true) :
    runLoop2 env i (fuel + 1) = ⟨[r], [], 1, .requiresConfirmation⟩ := by
  simp [runLoop2, hcan, hpi, hd, hni, hic, hconf]

theorem runLoop2_succ_execFail_cancelled {env : LoopEnv2} {i : Nat} {p : PageInfo}
    {r : AgentResponse} {e : Str} (fuel : Nat)
    (hcan : env.cancelled i = false) (hpi : env.pageInfo i = .ok p)
    (hd : env.decide i = .ok r) (hni : r.needsInput = false) (hic : r.isComplete = false)
    (hconf : shouldAskForConfirmation r = false)
    (hex : executeAction2 (env.exec i) r = .error e)
    (hce : env.cancelledAfterError i = true) :
    runLoop2 env i (fuel + 1) =
      ⟨[r, if r.action == toStr "wait_for_element" then
            match env.pageInfoRetry i with
            | .ok p2 => errorEntryWithSelectors e p2
            | .error _ => errorEntryPlain e
          else errorEntryPlain e], [r], 1, .cancelled⟩ := by
  simp [runLoop2, hcan, hpi, hd, hni, hic, hconf, hex, hce]

theorem runLoop2_succ_execFail_continue {env : LoopEnv2} {i : Nat} {p : PageInfo}
    {r : AgentResponse} {e : Str} (fuel : Nat)
    (hcan : env.cancelled i = false) (hpi : env.pageInfo i = .ok p)
    (hd : env.decide i = .ok r) (hni : r.needsInput = false) (hic : r.isComplete = false)
    (hconf : shouldAskForConfirmation r = false)
    (hex : executeAction2 (env.exec i) r = .error e)
    (hce : env.cancelledAfterError i = false) :
    runLoop2 env i (fuel + 1) =
      ⟨r :: (if r.action == toStr "wait_for_element" then
            match env.pageInfoRetry i with
            | .ok p2 => errorEntryWithSelectors e p2
            | .error _ => errorEntryPlain e
          else errorEntryPlain e) :: (runLoop2 env (i + 1) fuel).hist,
        r :: (runLoop2 env (i + 1) fuel).execs,
        (runLoop2 env (i + 1) fuel).decideCalls + 1, (runLoop2 env (i + 1) fuel).exit⟩ := by
  simp [runLoop2, hcan, hpi, hd, hni, hic, hconf, hex, hce]

theorem runLoop2_succ_execOk_cancelled {env : LoopEnv2} {i : Nat} {p : PageInfo}
    {r : AgentResponse} (fuel : Nat)
    (hcan : env.cancelled i = false) (hpi : env.pageInfo i = .ok p)
    (hd : env.decide i = .ok r) (hni : r.needsInput = false) (hic : r.isComplete = false)
    (hconf : shouldAskForConfirmation r = false)
    (hex : executeAction2 (env.exec i) r = .ok ())
    (hcx : env.cancelledAfterExec i = true) :
    runLoop2 env i (fuel + 1) = ⟨[r], [r], 1, .cancelled⟩ := by
  simp [runLoop2, hcan, hpi, hd, hni, hic, hconf, hex, hcx]

theorem runLoop2_succ_execOk_continue {env : LoopEnv2} {i : Nat} {p : PageInfo}
    {r : AgentResponse} (fuel : Nat)
    (hcan : env.cancelled i = false) (hpi : env.pageInfo i = .ok p)
    (hd : env.decide i = .ok r) (hni : r.needsInput = false) (hic : r.isComplete = false)
    (hconf : shouldAskForConfirmation r = false)
    (hex : executeAction2 (env.exec i) r = .ok ())
    (hcx : env.cancelledAfterExec i = false) :
    runLoop2 env i (fuel + 1) =
      ⟨r :: (runLoop2 env (i + 1) fuel).hist, r :: (runLoop2 env (i + 1) fuel).execs,
        (runLoop2 env (i + 1) fuel).decideCalls + 1, (runLoop2 env (i + 1) fuel).exit⟩ := by
  simp [runLoop2, hcan, hpi, hd, hni, hic, hconf, hex, hcx]

theorem runLoop1_approval (env : LoopEnv1) :
    ∀ (fuel i : Nat) (log : IterLog), log ∈ (runLoop1 env i fuel).trace →
      log.approvalRequired = requiresApproval log.action (some log.pageInfo) ∧
      (log.executed = true → log.approvalRequired = true → isAffirmative log.response = true) ∧
      (log.approvalRequired = true → isAffirmative log.response = false →
        log.executed = false ∧ (runLoop1 env i fuel).exit = .cancelledByUser ∧
        (runLoop1 env i fuel).status = .waiting) := by
  intro fuel
  induction fuel with
  | zero => intro i log h; rw [runLoop1_zero] at h; simp at h
  | succ n ih =>
    intro i log hmem
    cases hpi : env.pageInfo i with
    | error e => rw [runLoop1_succ_pageInfoError n hpi] at hmem; simp at hmem
    | ok p =>
      cases hd : env.decide i with
      | error e => rw [runLoop1_succ_deciderError n hpi hd] at hmem; simp at hmem
      | ok oa =>
        cases oa with
        | none => rw [runLoop1_succ_decideNone n hpi hd] at hmem; simp at hmem
        | some a0 =>
          by_cases hc : isCompleteAction a0 = true
          · rw [runLoop1_succ_complete n hpi hd hc] at hmem; simp at hmem
          · have hc' : isCompleteAction a0 = false := Bool.eq_false_iff.mpr hc
            by_cases hra : requiresApproval a0 (some p) = true
            · by_cases haf : isAffirmative (toLowerStr (trimStr (env.response i))) = true
              · rw [runLoop1_succ_gated_approved n hpi hd hc' hra haf] at hmem ⊢
                rcases List.mem_cons.mp hmem with hlog | htail
                · subst hlog
                  refine ⟨?_, ?_, ?_⟩
                  · dsimp only
                    rw [requiresApproval_setFlag]
                    exact hra.symm
                  · intro _ _
                    exact haf
                  · intro _ hneg
                    dsimp only at hneg
                    rw [haf] at hneg
                    cases hneg
                · have hrec := ih (i + 1) log htail
                  exact ⟨hrec.1, hrec.2.1, fun h1 h2 => (hrec.2.2 h1 h2)⟩
              · have haf' : isAffirmative (toLowerStr (trimStr (env.response i))) = false :=
                  Bool.eq_false_iff.mpr haf
                rw [runLoop1_succ_gated_denied n hpi hd hc' hra haf'] at hmem ⊢
                have hlog : log = ⟨p, { a0 with requiresApproval := true }, true,
                    toLowerStr (trimStr (env.response i)), false, none⟩ := by
                  simpa using hmem
                subst hlog
                refine ⟨?_, ?_, ?_⟩
                · dsimp only
                  rw [requiresApproval_setFlag]
                  exact hra.symm
                · intro hex _
                  cases hex
                · intro _ _
                  exact ⟨rfl, rfl, rfl⟩
            · have hra' : requiresApproval a0 (some p) = false := Bool.eq_false_iff.mpr hra
              rw [runLoop1_succ_ungated n hpi hd hc' hra'] at hmem ⊢
              rcases List.mem_cons.mp hmem with hlog | htail
              · subst hlog
                refine ⟨?_, ?_, ?_⟩
                · dsimp only
                  exact hra'.symm
                · intro _ hat
                  cases hat
                · intro hat
                  cases hat
              · have hrec := ih (i + 1) log htail
                exact ⟨hrec.1, hrec.2.1, fun h1 h2 => (hrec.2.2 h1 h2)⟩

theorem runLoop2_execs_unconfirmed (env : LoopEnv2) :
    ∀ (fuel i : Nat) (r : AgentResponse), r ∈ (runLoop2 env i fuel).execs →
      shouldAskForConfirmation r = false := by
  intro fuel
  induction fuel with
  | zero => intro i r h; rw [runLoop2_zero] at h; simp at h
  | succ n ih =>
    intro i r hmem
    by_cases hcan : env.cancelled i = true
    · rw [runLoop2_succ_cancelled n hcan] at hmem; simp at hmem
    · have hcan' : env.cancelled i = false := Bool.eq_false_iff.mpr hcan
      cases hpi : env.pageInfo i with
      | error e => rw [runLoop2_succ_pageInfoError n hcan' hpi] at hmem; simp at hmem
      | ok p =>
        cases hd : env.decide i with
        | error e => rw [runLoop2_succ_deciderError n hcan' hpi hd] at hmem; simp at hmem
        | ok r0 =>
          by_cases hni : r0.needsInput = true
          · rw [runLoop2_succ_needsInput n hcan' hpi hd hni] at hmem; simp at hmem
          · have hni' : r0.needsInput = false := Bool.eq_false_iff.mpr hni
            by_cases hic : r0.isComplete = true
            · rw [runLoop2_succ_complete n hcan' hpi hd hni' hic] at hmem; simp at hmem
            · have hic' : r0.isComplete = false := Bool.eq_false_iff.mpr hic
              by_cases hconf : shouldAskForConfirmation r0 = true
              · rw [runLoop2_succ_confirmation n hcan' hpi hd hni' hic' hconf] at hmem
                simp at hmem
              · have hconf' : shouldAskForConfirmation r0 = false := Bool.eq_false_iff.mpr hconf
                cases hex : executeAction2 (env.exec i) r0 with
                | error e =>
                  by_cases hce : env.cancelledAfterError i = true
                  · rw [runLoop2_succ_execFail_cancelled n hcan' hpi hd hni' hic' hconf' hex hce]
                      at hmem
                    have : r = r0 := by simpa using hmem
                    subst this
                    exact hconf'
                  · have hce' : env.cancelledAfterError i = false := Bool.eq_false_iff.mpr hce
                    rw [runLoop2_succ_execFail_continue n hcan' hpi hd hni' hic' hconf' hex hce']
                      at hmem
                    rcases List.mem_cons.mp hmem with rfl | ht
                    · exact hconf'
                    · exact ih (i + 1) r ht
                | ok u =>
                  cases u
                  by_cases hcx : env.cancelledAfterExec i = true
                  · rw [runLoop2_succ_execOk_cancelled n hcan' hpi hd hni' hic' hconf' hex hcx]
                      at hmem
                    have : r = r0 := by simpa using hmem
                    subst this
                    exact hconf'
                  · have hcx' : env.cancelledAfterExec i = false := Bool.eq_false_iff.mpr hcx
                    rw [runLoop2_succ_execOk_continue n hcan' hpi hd hni' hic' hconf' hex hcx']
                      at hmem
                    rcases List.mem_cons.mp hmem with rfl | ht
                    · exact hconf'
                    · exact ih (i + 1) r ht

/-- C1: in the stack-1 loop a gated action is executed only after an affirmative operator response, and on a denial it is not executed and the run ends with status Waiting; in the stack-2 loop an action needing confirmation is never passed to `executeAction` at all. -/
theorem c1_approval_gating :
    (∀ (env : LoopEnv1) (i fuel : Nat) (log : IterLog), log ∈ (runLoop1 env i fuel).trace →
      log.approvalRequired = requiresApproval log.action (some log.pageInfo) ∧
      (log.executed = true → log.approvalRequired = true → isAffirmative log.response = true) ∧
      (log.approvalRequired = true → isAffirmative log.response = false →
        log.executed = false ∧ (runLoop1 env i fuel).exit = .cancelledByUser ∧
        (runLoop1 env i fuel).status = .waiting)) ∧
    (∀ (env : LoopEnv2) (i fuel : Nat) (r : AgentResponse), r ∈ (runLoop2 env i fuel).execs →
      shouldAskForConfirmation r = false) :=
  ⟨fun env i fuel => runLoop1_approval env fuel i,
   fun env i fuel => runLoop2_execs_unconfirmed env fuel i⟩

theorem c1_approval_gating_witness :
    (executeTask1 c1Env).exit = Exit1.cancelledByUser ∧
    (executeTask1 c1Env).status = TaskStatus.waiting ∧
    c1Log.executed = false ∧
    shouldAskForConfirmation c1Resp = false := by
  have h1 := (c1_approval_gating.1 c1Env 0 maxIterationsV1 c1Log (by decide)).2.2
    (by decide) (by decide)
  exact ⟨h1.2.1, h1.2.2, h1.1,
    c1_approval_gating.2 c1Env2 0 maxIterationsV2 c1Resp (by decide)⟩

/-- C3 (counterexample): a page-snapshot extraction failure terminates the stack-2 task with an error that is none of the four conditions the claim lists as the only fatal ones, and it is not recorded as history context. -/
theorem c3_snapshot_failure_is_fatal :
    (executeTask2 c3FailEnv).exit = Exit2.pageInfoError (toStr "browser crashed") ∧
    (executeTask2 c3FailEnv).hist = [] := by
  exact ⟨by decide, by decide⟩

/-- C3 (amended): an action-execution failure never terminates the loop; it is absorbed as an error history entry and the run continues with the next iteration. -/
theorem c3_exec_failure_absorbed :
    ∀ (env : LoopEnv2) (i fuel : Nat) (r : AgentResponse) (e : Str) (p : PageInfo),
      env.cancelled i = false → env.pageInfo i = .ok p → env.decide i = .ok r →
      r.needsInput = false → r.isComplete = false → shouldAskForConfirmation r = false →
      executeAction2 (env.exec i) r = .error e → env.cancelledAfterError i = false →
      runLoop2 env i (fuel + 1) =
        ⟨r :: (if r.action == toStr "wait_for_element" then
              match env.pageInfoRetry i with
              | .ok p2 => errorEntryWithSelectors e p2
              | .error _ => errorEntryPlain e
            else errorEntryPlain e) :: (runLoop2 env (i + 1) fuel).hist,
          r :: (runLoop2 env (i + 1) fuel).execs,
          (runLoop2 env (i + 1) fuel).decideCalls + 1, (runLoop2 env (i + 1) fuel).exit⟩ :=
  fun _ _ fuel _ _ _ hcan hpi hd hni hic hconf hex hce =>
    runLoop2_succ_execFail_continue fuel hcan hpi hd hni hic hconf hex hce

theorem c3_exec_failure_absorbed_witness :
    runLoop2 c3wEnv 0 2 =
      ⟨[c3Resp, errorEntryPlain (toStr "dns failure"), respDone], [c3Resp], 2, .completed⟩ := by
  rw [c3_exec_failure_absorbed c3wEnv 0 1 c3Resp (toStr "dns failure") {} rfl rfl rfl rfl rfl
    (by decide) rfl rfl]
  decide

/-- C6 (counterexample): a click failing with an element-not-found error gets a failure history entry carrying the error text only — the visible candidate selector reported by the fresh snapshot is not attached, refuting the claim. -/
theorem c6_click_failure_lacks_selectors :
    (executeTask2 c6Env).hist = [c6Click, errorEntryPlain c6Err, respDone] ∧
    (executeTask2 c6Env).exit = Exit2.completed ∧
    availableSelectors c6Page2.elements = [toStr "#cand"] ∧
    containsStr (errorEntryPlain c6Err).reasoning (toStr "#cand") = false := by
  exact ⟨by decide, by decide, by decide, by decide⟩

/-- C6 (amended): on a failed click the loop appends a plain failure entry with the error text and continues to the next decision call; the candidate-selector list from the fresh snapshot is attached only when the failed action is wait_for_element. -/
theorem c6_failure_entry_by_action :
    (∀ (env : LoopEnv2) (i fuel : Nat) (r : AgentResponse) (e : Str) (p : PageInfo),
      env.cancelled i = false → env.pageInfo i = .ok p → env.decide i = .ok r →
      r.needsInput = false → r.isComplete = false → shouldAskForConfirmation r = false →
      r.action = toStr "click" →
      executeAction2 (env.exec i) r = .error e → env.cancelledAfterError i = false →
      runLoop2 env i (fuel + 1) =
        ⟨r :: errorEntryPlain e :: (runLoop2 env (i + 1) fuel).hist,
          r :: (runLoop2 env (i + 1) fuel).execs,
          (runLoop2 env (i + 1) fuel).decideCalls + 1, (runLoop2 env (i + 1) fuel).exit⟩) ∧
    (∀ (env : LoopEnv2) (i fuel : Nat) (r : AgentResponse) (e : Str) (p p2 : PageInfo),
      env.cancelled i = false → env.pageInfo i = .ok p → env.decide i = .ok r →
      r.needsInput = false → r.isComplete = false → shouldAskForConfirmation r = false →
      r.action = toStr "wait_for_element" → env.pageInfoRetry i = .ok p2 →
      executeAction2 (env.exec i) r = .error e → env.cancelledAfterError i = false →
      runLoop2 env i (fuel + 1) =
        ⟨r :: errorEntryWithSelectors e p2 :: (runLoop2 env (i + 1) fuel).hist,
          r :: (runLoop2 env (i + 1) fuel).execs,
          (runLoop2 env (i + 1) fuel).decideCalls + 1, (runLoop2 env (i + 1) fuel).exit⟩) := by
  constructor
  · intro env i fuel r e p hcan hpi hd hni hic hconf hact hex hce
    rw [runLoop2_succ_execFail_continue fuel hcan hpi hd hni hic hconf hex hce]
    have hne : (r.action == toStr "wait_for_element") = false := by
      rw [hact]
      decide
    rw [hne]
    rfl
  · intro env i fuel r e p p2 hcan hpi hd hni hic hconf hact hretry hex hce
    rw [runLoop2_succ_execFail_continue fuel hcan hpi hd hni hic hconf hex hce]
    have heq : (r.action == toStr "wait_for_element") = true := by
      rw [hact]
      decide
    rw [heq, hretry]
    rfl

theorem c6_failure_entry_by_action_witness :
    runLoop2 c6Env 0 2 =
      ⟨[c6Click, errorEntryPlain c6Err, respDone], [c6Click], 2, .completed⟩ ∧
    runLoop2 c6wEnv 0 2 =
      ⟨[c6Wait, errorEntryWithSelectors c6Err c6Page2, respDone], [c6Wait], 2, .completed⟩ := by
  constructor
  · rw [c6_failure_entry_by_action.1 c6Env 0 1 c6Click c6Err {} rfl rfl rfl rfl rfl
      (by decide) rfl rfl rfl]
    decide
  · rw [c6_failure_entry_by_action.2 c6wEnv 0 1 c6Wait c6Err {} c6Page2 rfl rfl rfl rfl rfl
      (by decide) rfl rfl rfl rfl]
    decide

end AiAutomation
